import Mathlib

/-!
Verification development for the newport-rentals repository.

The definitions below are shallow embeddings of the Python source under
`apps/open-source/`:
  * `agent/main.py` — inbound agent worker (entrypoint, event handlers,
    `submit_lead_form` RPC dispatcher);
  * `agent/outbound-main.py` — outbound agent worker (job acceptance,
    same dispatcher shape);
  * `token-server/main.py` — FastAPI server (`/api/make-call` phone
    normalisation);
  * `token-server/calendar_service.py` — `GoogleCalendarService.check_availability`.

Python strings are Lean `String`s; machine-level concerns do not arise.
Fallible operations whose outcome is decided by the outside world
(JSON parsing of an RPC payload, the HTTP status of a webhook POST,
Google API authentication) are passed in as `Option` oracles, mirroring
the `try/except` structure of the source.
-/

namespace NewportRentals

/-- Python's `needle in haystack` substring test. -/
def pyContains (haystack needle : String) : Bool :=
  decide (needle.data <:+: haystack.data)

/-- Python's `s.lower()` (`Char.toLower` on each character; room names
are ASCII). -/
def pyToLower (s : String) : String :=
  ⟨s.data.map Char.toLower⟩

/-- Python's `s.startswith(p)` prefix test. -/
def pyStartsWith (s p : String) : Bool :=
  p.data.isPrefixOf s.data

/-- The characters removed by Python's `str.strip()` (ASCII whitespace;
the Unicode additions are irrelevant to phone-number input). -/
def pyIsSpace (c : Char) : Bool :=
  c = ' ' || c = '\t' || c = '\n' || c = '\r' || c = '\x0b' || c = '\x0c'

/-- Python's `s.strip()`: drop leading and trailing whitespace. -/
def pyStrip (s : String) : String :=
  ⟨((s.data.dropWhile pyIsSpace).reverse.dropWhile pyIsSpace).reverse⟩

/-! ## Call intake router

`agent/main.py` lines 50–114 pick the instruction script from the room
name; lines 202–225 pick the greeting; `agent/outbound-main.py`
lines 164–176 accept a job only when the room name contains
`"outbound"`, and its entrypoint (lines 43–50) uses the outbound
template for every room it accepts. -/

/-- The three instruction scripts appearing in the source: the
"NEW PROMPT - Newport Beach Vacation Properties Regina" block, the
default `prompt.template` substitution (business name defaults to
"Voice Sell AI"), and the `outbound-prompt.template` substitution. -/
inductive AgentScript where
  | reginaNewport
  | voiceSellDefault
  | ashleyOutbound
deriving DecidableEq, Repr

/-- `agent/main.py` lines 50–114: `if "devin" in room_name.lower()` the
Regina Newport prompt, else the default template. -/
def mainInstructions (roomName : String) : AgentScript :=
  if pyContains (pyToLower roomName) "devin" then .reginaNewport
  else .voiceSellDefault

/-- Greeting spoken for rooms containing "newport" (`main.py` line 209). -/
def reginaGreetingLine : String :=
  "Hi, is this the guest calling about your Newport Beach reservation?"

/-- Greeting spoken for rooms containing "devin" (`main.py` line 216). -/
def ashleyGreetingLine : String := "Hi is this Peter?"

/-- Default greeting (`main.py` line 223). -/
def voiceSellGreetingLine : String :=
  "Thank you for calling Voice Sell AI. How can I help you today?"

/-- `agent/main.py` lines 202–225: greeting selection by first-match
substring tests on the lower-cased room name. -/
def mainGreeting (roomName : String) : String :=
  if pyContains (pyToLower roomName) "newport" then reginaGreetingLine
  else if pyContains (pyToLower roomName) "devin" then ashleyGreetingLine
  else voiceSellGreetingLine

/-- `agent/outbound-main.py` lines 164–176 (`request_fnc`): the outbound
worker accepts exactly the jobs whose room name contains "outbound". -/
def outboundAccepts (roomName : String) : Bool :=
  pyContains (pyToLower roomName) "outbound"

/-- `agent/outbound-main.py` lines 43–50: the outbound entrypoint uses
the outbound template for every room it handles. -/
def outboundInstructions (_roomName : String) : AgentScript :=
  .ashleyOutbound

/-- The two-worker system: a room taken by the outbound worker (its
`request_fnc` accepts it) gets the outbound script; every other room is
handled by the inbound worker of `agent/main.py`. -/
def systemScript (roomName : String) : AgentScript :=
  if outboundAccepts roomName then outboundInstructions roomName
  else mainInstructions roomName

/-- Modelled from the spec: the router that section 8 of the spec
claims — "outbound" selects the outbound script, otherwise "newport"
the inbound (Regina) script, otherwise the default (Voice Sell AI).
This definition follows the spec's words and is compared against
`systemScript`, which follows the source. -/
def specClaimedScript (roomName : String) : AgentScript :=
  if pyContains (pyToLower roomName) "outbound" then .ashleyOutbound
  else if pyContains (pyToLower roomName) "newport" then .reginaNewport
  else .voiceSellDefault

/-! ## Session lifecycle controller

`agent/main.py` drives one call with two `asyncio.Event`s
(`session_ended`, `greeting_allowed`) set by three callbacks:
`on_track_subscribed` (lines 34–38), `on_participant_disconnected`
(lines 40–43) and `on_user_state_changed` (lines 156–163).  The state a
handler can observe or change is captured by `SessionState`; setting an
already-set `asyncio.Event` is a no-op, which the `Bool` fields model
exactly. -/

/-- The mutable per-call state touched by the event callbacks. -/
structure SessionState where
  greetingAllowed : Bool
  sessionEnded : Bool
deriving DecidableEq, Repr

/-- `rtc.TrackKind` as far as the handler inspects it. -/
inductive TrackKind where
  | audio
  | other
deriving DecidableEq, Repr

/-- `main.py` lines 34–38: allow the greeting when a user audio track is
subscribed and the participant is not the agent itself. -/
def on_track_subscribed (kind : TrackKind) (identity : String)
    (s : SessionState) : SessionState :=
  if kind = TrackKind.audio ∧ pyStartsWith identity "chat-to-form-agent" = false then
    { s with greetingAllowed := true }
  else s

/-- `main.py` lines 40–43: any participant disconnect sets `session_ended`. -/
def on_participant_disconnected (_identity : String)
    (s : SessionState) : SessionState :=
  { s with sessionEnded := true }

/-- `main.py` lines 156–163: "away" while the form is displayed is
ignored; "away" otherwise sets `session_ended`; other states are ignored. -/
def on_user_state_changed (newState : String) (isFormDisplayed : Bool)
    (s : SessionState) : SessionState :=
  if newState = "away" ∧ isFormDisplayed = true then s
  else if newState = "away" then { s with sessionEnded := true }
  else s

/-- The events delivered to the session's callbacks. -/
inductive SessionEvent where
  | trackSubscribed (kind : TrackKind) (identity : String)
  | participantDisconnected (identity : String)
  | userStateChanged (newState : String) (isFormDisplayed : Bool)
deriving DecidableEq, Repr

/-- Dispatch of one event to its handler. -/
def sessionStep (e : SessionEvent) (s : SessionState) : SessionState :=
  match e with
  | .trackSubscribed kind identity => on_track_subscribed kind identity s
  | .participantDisconnected identity => on_participant_disconnected identity s
  | .userStateChanged newState flag => on_user_state_changed newState flag s

/-! ## Entrypoint failure handling

`agent/main.py` lines 45–233: the whole session body sits in
`try: … except Exception as e: logging.error(…) finally: ctx.shutdown()`.
The body's outcome (normal return or a raised `Exception`) is the
input; the output records whether an exception propagates out of the
entrypoint and which cleanup actions ran. -/

/-- Observable side effects of the entrypoint's exception plumbing. -/
inductive AgentAction where
  | logError (msg : String)
  | shutdown
deriving DecidableEq, Repr

/-- `main.py` lines 230–233: `except Exception` logs and swallows;
`finally` always calls `ctx.shutdown()`.  The first component is the
entrypoint's own outcome (what escapes to the worker framework). -/
def entrypointRun (bodyOutcome : Except String Unit) :
    Except String Unit × List AgentAction :=
  match bodyOutcome with
  | .ok _ => (Except.ok (), [AgentAction.shutdown])
  | .error e => (Except.ok (), [AgentAction.logError e, AgentAction.shutdown])

/-- `main.py` lines 242–249 (`request_fnc`): a failure of `req.accept`
is logged and re-raised to the worker framework. -/
def request_fnc_run (acceptOutcome : Except String Unit) :
    Except String Unit × List AgentAction :=
  match acceptOutcome with
  | .ok _ => (Except.ok (), [])
  | .error e => (Except.error e, [AgentAction.logError e])

/-! ## Lead/booking dispatcher

`agent/main.py` lines 165–196 (`submit_lead_form_handler` and the
nested `_process_submission`).  Three outside-world outcomes are passed
as oracles: the configured `WEBHOOK_URL` (`None` or the string from the
environment; Python's `if not WEBHOOK_URL` also rejects `""`), the
result of `json.loads(data.payload)` (`none` means it raised), and the
result of the `aiohttp` POST (`none` means the request raised, `some
status` is the HTTP status).  The output records every externally
visible action of one invocation. -/

/-- Spoken line for a missing `WEBHOOK_URL` (`main.py` line 172). -/
def configErrorLine : String :=
  "I\x27m sorry, there is a configuration error and I can\x27t save your information."

/-- Spoken line for a 2xx webhook response (`main.py` line 185). -/
def thankYouLine : String :=
  "Thank you. Your information has been sent. Was there anything else I can help you with today?"

/-- Spoken line for a non-2xx webhook response (`main.py` line 190). -/
def sendErrorLine : String :=
  "I\x27m sorry, there was an error sending your information."

/-- Spoken line when the `try` block raises (`main.py` line 193). -/
def techErrorLine : String :=
  "I\x27m sorry, a technical error occurred."

/-- Everything one `submit_lead_form` invocation does that the rest of
the system can observe. `posts` lists the webhook POSTs attempted
(url, parsed payload); `persisted` lists payloads written to any
durable store — the source has no such write, so it is always empty. -/
structure LeadDispatch where
  interrupted : Bool
  formDisplayedAfter : Bool
  posts : List (String × String)
  spoken : List String
  persisted : List String
  rpcResult : String
deriving DecidableEq, Repr

/-- `agent/main.py` lines 165–196. `session.interrupt()` runs first;
the handler returns `"SUCCESS"` unconditionally while the webhook work
happens in a detached task whose branches are reproduced here:
no/empty `WEBHOOK_URL` → config-error line, nothing else; `json.loads`
raising → flag already cleared, technical-error line; POST raising →
technical-error line; otherwise the status class picks one of two
lines. -/
def submit_lead_form_handler (webhookUrl : Option String)
    (parsedPayload : Option String) (postOutcome : Option Nat)
    (formDisplayedBefore : Bool) : LeadDispatch :=
  match webhookUrl with
  | none =>
      { interrupted := true, formDisplayedAfter := formDisplayedBefore,
        posts := [], spoken := [configErrorLine], persisted := [],
        rpcResult := "SUCCESS" }
  | some url =>
      if url = "" then
        { interrupted := true, formDisplayedAfter := formDisplayedBefore,
          posts := [], spoken := [configErrorLine], persisted := [],
          rpcResult := "SUCCESS" }
      else
        match parsedPayload with
        | none =>
            { interrupted := true, formDisplayedAfter := false,
              posts := [], spoken := [techErrorLine], persisted := [],
              rpcResult := "SUCCESS" }
        | some lead =>
            match postOutcome with
            | none =>
                { interrupted := true, formDisplayedAfter := false,
                  posts := [(url, lead)], spoken := [techErrorLine],
                  persisted := [], rpcResult := "SUCCESS" }
            | some status =>
                if 200 ≤ status ∧ status < 300 then
                  { interrupted := true, formDisplayedAfter := false,
                    posts := [(url, lead)], spoken := [thankYouLine],
                    persisted := [], rpcResult := "SUCCESS" }
                else
                  { interrupted := true, formDisplayedAfter := false,
                    posts := [(url, lead)], spoken := [sendErrorLine],
                    persisted := [], rpcResult := "SUCCESS" }

/-! ## Phone-number normalisation

`token-server/main.py` lines 96–102 inside `make_call`:

    phone_number = request.phone_number.strip()
    if not phone_number.startswith('+'):
        if phone_number.startswith('1'):
            phone_number = '+' + phone_number
        else:
            phone_number = '+1' + phone_number
-/

/-- The dialled-number normalisation of `/api/make-call`. -/
def normalizeDialNumber (phone : String) : String :=
  let p := pyStrip phone
  if pyStartsWith p "+" then p
  else if pyStartsWith p "1" then "+" ++ p
  else "+1" ++ p

/-! ## Calendar availability

`token-server/calendar_service.py` lines 43–111
(`GoogleCalendarService.check_availability`).  Times are minutes on a
timeline anchored at a midnight, so `datetime.hour` is
`(t / 60) % 24`; a busy interval is the parsed `(start, end)` pair of
one freebusy entry.  The `while` loop advances `current_time` by 30
minutes per iteration; the embedding makes that recursion structural on
a fuel argument that the wrapper instantiates large enough
(`endT + 31`) that the source's termination condition, not the fuel,
stops the loop. -/

/-- Minutes-since-midnight-anchored timeline: the `.hour` field. -/
def hourOfMinutes (t : Nat) : Nat := (t / 60) % 24

/-- One busy interval returned by the freebusy query. -/
structure BusyInterval where
  busyStart : Nat
  busyStop : Nat
deriving DecidableEq, Repr

/-- One entry of the returned `available_slots` list (the string
renderings of the source carry no extra information). -/
structure Slot where
  slotStart : Nat
  slotStop : Nat
deriving DecidableEq, Repr

/-- `calendar_service.py` line 84: the slot-vs-busy conflict test
`current_time < busy_end and slot_end > busy_start`. -/
def slotConflicts (s e : Nat) (b : BusyInterval) : Bool :=
  decide (s < b.busyStop) && decide (e > b.busyStart)

/-- The `while` loop of `check_availability` (lines 66–102): skip
non-business hours, append a conflict-free slot, stop after 8 slots or
when the next slot would overrun `endT`. -/
def availLoop (endT dur : Nat) (busy : List BusyInterval) :
    Nat → Nat → List Slot → List Slot
  | 0, _, acc => acc
  | fuel + 1, current, acc =>
    if current + dur ≤ endT then
      if hourOfMinutes current < 9 ∨ 18 ≤ hourOfMinutes current then
        availLoop endT dur busy fuel (current + 30) acc
      else
        let slotEnd := current + dur
        let acc' := if busy.all (fun b => !(slotConflicts current slotEnd b)) then
          acc ++ [⟨current, slotEnd⟩] else acc
        if 8 ≤ acc'.length then acc'
        else availLoop endT dur busy fuel (current + 30) acc'
    else acc

/-- `GoogleCalendarService.check_availability` (lines 43–111).
`authOk = false` is `authenticate()` failing (line 46: return `[]`);
`query = none` is any raised `HttpError`/`Exception` — date parsing or
the freebusy call — caught at lines 106–111 (return `[]`); otherwise
the parsed `(start, end, busy)` feed the loop starting at the query's
start time with an empty accumulator. -/
def check_availability (authOk : Bool)
    (query : Option (Nat × Nat × List BusyInterval))
    (durationMinutes : Nat) : List Slot :=
  if authOk = false then []
  else
    match query with
    | none => []
    | some (startT, endT, busy) =>
        availLoop endT durationMinutes busy (endT + 31) startT []

/-! ## Theorems -/

/-- C1 (counterexample): the claimed router — "outbound" → outbound
script, else "newport" → Regina, else Voice Sell default — disagrees
with the source on the room name "devin": the source selects the Regina
Newport prompt (the `"devin" in room_name.lower()` branch of
`main.py`), the claim selects the default. -/
theorem C1_router_counterexample :
    systemScript "devin" ≠ specClaimedScript "devin" := by decide

/-- C1 (amended): room names containing "outbound" go to the outbound
worker and get the outbound script; the inbound worker selects the
instruction script by the substring "devin" (Regina Newport prompt if
present, default Voice Sell template otherwise) and the greeting by
first-match tests "newport" (Regina), then "devin" (Ashley), else the
Voice Sell default; both selections are pure functions of the
lower-cased room name. -/
theorem C1_router_amended (room : String) :
    (pyContains (pyToLower room) "outbound" = true →
      systemScript room = AgentScript.ashleyOutbound) ∧
    (pyContains (pyToLower room) "outbound" = false →
      pyContains (pyToLower room) "devin" = true →
      systemScript room = AgentScript.reginaNewport) ∧
    (pyContains (pyToLower room) "outbound" = false →
      pyContains (pyToLower room) "devin" = false →
      systemScript room = AgentScript.voiceSellDefault) ∧
    (pyContains (pyToLower room) "newport" = true →
      mainGreeting room = reginaGreetingLine) ∧
    (pyContains (pyToLower room) "newport" = false →
      pyContains (pyToLower room) "devin" = true →
      mainGreeting room = ashleyGreetingLine) ∧
    (pyContains (pyToLower room) "newport" = false →
      pyContains (pyToLower room) "devin" = false →
      mainGreeting room = voiceSellGreetingLine) := by
  refine ⟨fun h1 => ?_, fun h1 h2 => ?_, fun h1 h2 => ?_,
          fun h1 => ?_, fun h1 h2 => ?_, fun h1 h2 => ?_⟩
  · simp [systemScript, outboundAccepts, outboundInstructions, h1]
  · simp [systemScript, outboundAccepts, mainInstructions, h1, h2]
  · simp [systemScript, outboundAccepts, mainInstructions, h1, h2]
  · simp [mainGreeting, h1]
  · simp [mainGreeting, h1, h2]
  · simp [mainGreeting, h1, h2]

/-- Witness for `C1_router_amended` at the room name "devin_room". -/
theorem C1_router_witness :
    systemScript "devin_room" = AgentScript.reginaNewport ∧
    mainGreeting "devin_room" = ashleyGreetingLine :=
  ⟨(C1_router_amended "devin_room").2.1 (by decide) (by decide),
   (C1_router_amended "devin_room").2.2.2.2.1 (by decide) (by decide)⟩

/-- C2: an "away" user-state event while the form-displayed flag is
true leaves the session state unchanged (so an active session stays
active), and the same event with the flag false marks the session
ended. -/
theorem C2_away_depends_on_form_flag (s : SessionState) :
    on_user_state_changed "away" true s = s ∧
    (on_user_state_changed "away" false s).sessionEnded = true := by
  constructor
  · simp [on_user_state_changed]
  · simp [on_user_state_changed]

/-- C3: when the webhook POST returns a status, the thank-you line is
spoken exactly for a 2xx status (200 ≤ status < 300) and the
send-error line for every other status. -/
theorem C3_status_class_selects_line (url lead : String) (status : Nat)
    (flag : Bool) (hurl : url ≠ "") :
    ((200 ≤ status ∧ status < 300) →
      (submit_lead_form_handler (some url) (some lead) (some status) flag).spoken
        = [thankYouLine]) ∧
    (¬(200 ≤ status ∧ status < 300) →
      (submit_lead_form_handler (some url) (some lead) (some status) flag).spoken
        = [sendErrorLine]) := by
  constructor <;> intro h <;> simp [submit_lead_form_handler, hurl, h]

/-- Witness for `C3_status_class_selects_line` at statuses 200 and 500. -/
theorem C3_status_class_witness :
    (submit_lead_form_handler (some "https://example.org/hook") (some "lead")
      (some 200) true).spoken = [thankYouLine] ∧
    (submit_lead_form_handler (some "https://example.org/hook") (some "lead")
      (some 500) true).spoken = [sendErrorLine] :=
  ⟨(C3_status_class_selects_line "https://example.org/hook" "lead" 200 true
      (by decide)).1 (by decide),
   (C3_status_class_selects_line "https://example.org/hook" "lead" 500 true
      (by decide)).2 (by decide)⟩

/-- C4 (counterexample): with no webhook URL configured, the handler
performs no POST and leaves the form-displayed flag unchanged, so the
claim's "sets the form-displayed flag to false, and performs exactly
one outbound HTTP POST" fails on that invocation. -/
theorem C4_dispatch_counterexample :
    ¬((submit_lead_form_handler none (some "lead") (some 200) true).posts.length = 1 ∧
      (submit_lead_form_handler none (some "lead") (some 200) true).formDisplayedAfter
        = false) := by
  decide

/-- C4 (amended): every invocation interrupts the current speech; when
the webhook URL is configured, the payload parses and the POST returns
a status, the flag is cleared, exactly one POST is made and one of the
two canned confirmations is spoken by status class; when the webhook
URL is absent, no POST is made, the configuration-error line is spoken
and the flag keeps its value. -/
theorem C4_dispatch_amended (w p : Option String) (o : Option Nat) (flag : Bool) :
    (submit_lead_form_handler w p o flag).interrupted = true ∧
    (∀ url lead status, w = some url → url ≠ "" → p = some lead → o = some status →
      (submit_lead_form_handler w p o flag).formDisplayedAfter = false ∧
      (submit_lead_form_handler w p o flag).posts = [(url, lead)] ∧
      ((200 ≤ status ∧ status < 300) →
        (submit_lead_form_handler w p o flag).spoken = [thankYouLine]) ∧
      (¬(200 ≤ status ∧ status < 300) →
        (submit_lead_form_handler w p o flag).spoken = [sendErrorLine])) ∧
    (w = none →
      (submit_lead_form_handler w p o flag).posts = [] ∧
      (submit_lead_form_handler w p o flag).spoken = [configErrorLine] ∧
      (submit_lead_form_handler w p o flag).formDisplayedAfter = flag) := by
  refine ⟨?_, ?_, ?_⟩
  · rcases w with _ | url
    · rfl
    · by_cases hu : url = ""
      · simp [submit_lead_form_handler, hu]
      · rcases p with _ | lead
        · simp [submit_lead_form_handler, hu]
        · rcases o with _ | status
          · simp [submit_lead_form_handler, hu]
          · by_cases hs : 200 ≤ status ∧ status < 300 <;>
              simp [submit_lead_form_handler, hu, hs]
  · rintro url lead status rfl hu rfl rfl
    refine ⟨?_, ?_, fun hs => ?_, fun hs => ?_⟩
    · by_cases hs : 200 ≤ status ∧ status < 300 <;>
        simp [submit_lead_form_handler, hu, hs]
    · by_cases hs : 200 ≤ status ∧ status < 300 <;>
        simp [submit_lead_form_handler, hu, hs]
    · simp [submit_lead_form_handler, hu, hs]
    · simp [submit_lead_form_handler, hu, hs]
  · rintro rfl
    simp [submit_lead_form_handler]

/-- Witness for `C4_dispatch_amended` with a configured webhook,
parsing payload and a 204 response. -/
theorem C4_dispatch_witness :
    (submit_lead_form_handler (some "https://hook.example") (some "lead")
      (some 204) true).formDisplayedAfter = false ∧
    (submit_lead_form_handler (some "https://hook.example") (some "lead")
      (some 204) true).posts = [("https://hook.example", "lead")] ∧
    (submit_lead_form_handler (some "https://hook.example") (some "lead")
      (some 204) true).spoken = [thankYouLine] := by
  have h := (C4_dispatch_amended (some "https://hook.example") (some "lead")
    (some 204) true).2.1 "https://hook.example" "lead" 204 rfl (by decide) rfl rfl
  exact ⟨h.1, h.2.1, h.2.2.1 (by decide)⟩

/-- C5 (counterexample): a non-2xx response and a network failure are
answered with two different apology lines, so the claim's "mapped to a
single generic spoken apology" fails. -/
theorem C5_single_apology_counterexample :
    (submit_lead_form_handler (some "https://example.org/hook") (some "lead")
      (some 500) true).spoken ≠
    (submit_lead_form_handler (some "https://example.org/hook") (some "lead")
      none true).spoken := by
  decide

/-- C5 (amended): every submission error — malformed payload, network
failure, or non-2xx response — is caught and answered with one generic
apology line (the technical-error line for raised exceptions, the
send-error line for non-2xx statuses); at most one POST is attempted
and nothing is persisted. -/
theorem C5_errors_amended (url : String) (p : Option String) (o : Option Nat)
    (flag : Bool) (hurl : url ≠ "")
    (herr : p = none ∨ o = none ∨
      ∃ status, o = some status ∧ ¬(200 ≤ status ∧ status < 300)) :
    ((submit_lead_form_handler (some url) p o flag).spoken = [techErrorLine] ∨
     (submit_lead_form_handler (some url) p o flag).spoken = [sendErrorLine]) ∧
    (submit_lead_form_handler (some url) p o flag).posts.length ≤ 1 ∧
    (submit_lead_form_handler (some url) p o flag).persisted = [] := by
  have hlen : (submit_lead_form_handler (some url) p o flag).posts.length ≤ 1 ∧
      (submit_lead_form_handler (some url) p o flag).persisted = [] := by
    rcases p with _ | lead
    · simp [submit_lead_form_handler, hurl]
    · rcases o with _ | status
      · simp [submit_lead_form_handler, hurl]
      · by_cases hs : 200 ≤ status ∧ status < 300 <;>
          simp [submit_lead_form_handler, hurl, hs]
  refine ⟨?_, hlen⟩
  rcases herr with hp | ho | ⟨status, ho, hs⟩
  · subst hp; exact Or.inl (by simp [submit_lead_form_handler, hurl])
  · subst ho
    rcases p with _ | lead
    · exact Or.inl (by simp [submit_lead_form_handler, hurl])
    · exact Or.inl (by simp [submit_lead_form_handler, hurl])
  · subst ho
    rcases p with _ | lead
    · exact Or.inl (by simp [submit_lead_form_handler, hurl])
    · exact Or.inr (by simp [submit_lead_form_handler, hurl, hs])

/-- Witness for `C5_errors_amended` on a network failure. -/
theorem C5_errors_witness :
    ((submit_lead_form_handler (some "https://hook.example/wh") (some "lead")
      none true).spoken = [techErrorLine] ∨
     (submit_lead_form_handler (some "https://hook.example/wh") (some "lead")
      none true).spoken = [sendErrorLine]) ∧
    (submit_lead_form_handler (some "https://hook.example/wh") (some "lead")
      none true).posts.length ≤ 1 ∧
    (submit_lead_form_handler (some "https://hook.example/wh") (some "lead")
      none true).persisted = [] :=
  C5_errors_amended "https://hook.example/wh" (some "lead") none true
    (by decide) (Or.inr (Or.inl rfl))

/-- C8: the RPC handler returns "SUCCESS" to the remote peer for every
combination of webhook configuration, payload parse outcome and POST
outcome. -/
theorem C8_rpc_always_success (w p : Option String) (o : Option Nat)
    (flag : Bool) :
    (submit_lead_form_handler w p o flag).rpcResult = "SUCCESS" := by
  rcases w with _ | url
  · rfl
  · by_cases hu : url = ""
    · simp [submit_lead_form_handler, hu]
    · rcases p with _ | lead
      · simp [submit_lead_form_handler, hu]
      · rcases o with _ | status
        · simp [submit_lead_form_handler, hu]
        · by_cases hs : 200 ≤ status ∧ status < 300 <;>
            simp [submit_lead_form_handler, hu, hs]

/-- C6: applying any session event twice has the same effect as
applying it once (so signalling session end a second time has no
additional effect), and a session already in the ended state stays
ended under every further event — it ends once and is never reused. -/
theorem C6_teardown_idempotent (e e' : SessionEvent) (s : SessionState) :
    sessionStep e (sessionStep e s) = sessionStep e s ∧
    (s.sessionEnded = true → (sessionStep e' s).sessionEnded = true) := by
  constructor
  · cases e with
    | trackSubscribed k i =>
        by_cases h : k = TrackKind.audio ∧ pyStartsWith i "chat-to-form-agent" = false <;>
          simp [sessionStep, on_track_subscribed, h]
    | participantDisconnected i =>
        simp [sessionStep, on_participant_disconnected]
    | userStateChanged ns flag =>
        cases flag <;> by_cases h2 : ns = "away" <;>
          simp [sessionStep, on_user_state_changed, h2]
  · intro hEnd
    cases e' with
    | trackSubscribed k i =>
        by_cases h : k = TrackKind.audio ∧ pyStartsWith i "chat-to-form-agent" = false <;>
          simp [sessionStep, on_track_subscribed, h, hEnd]
    | participantDisconnected i =>
        simp [sessionStep, on_participant_disconnected]
    | userStateChanged ns flag =>
        cases flag <;> by_cases h2 : ns = "away" <;>
          simp [sessionStep, on_user_state_changed, h2, hEnd]

/-- Witness for `C6_teardown_idempotent`: a second participant
disconnect on an already-ended session leaves it ended. -/
theorem C6_teardown_witness :
    sessionStep (SessionEvent.participantDisconnected "visitor")
        (sessionStep (SessionEvent.participantDisconnected "visitor") ⟨false, false⟩) =
      sessionStep (SessionEvent.participantDisconnected "visitor") ⟨false, false⟩ ∧
    (sessionStep (SessionEvent.userStateChanged "away" false) ⟨false, true⟩).sessionEnded
      = true :=
  ⟨(C6_teardown_idempotent (SessionEvent.participantDisconnected "visitor")
      (SessionEvent.participantDisconnected "visitor") ⟨false, false⟩).1,
   (C6_teardown_idempotent (SessionEvent.participantDisconnected "visitor")
      (SessionEvent.userStateChanged "away" false) ⟨false, true⟩).2 (by decide)⟩

/-- C7: whatever the outcome of the entrypoint body, no exception
escapes the entrypoint, `ctx.shutdown()` runs, and a raised exception
is logged. -/
theorem C7_entrypoint_contains_failures (bodyOutcome : Except String Unit) :
    (entrypointRun bodyOutcome).1 = Except.ok () ∧
    AgentAction.shutdown ∈ (entrypointRun bodyOutcome).2 ∧
    (∀ e, bodyOutcome = Except.error e →
      AgentAction.logError e ∈ (entrypointRun bodyOutcome).2) := by
  cases bodyOutcome with
  | ok u => cases u; simp [entrypointRun]
  | error e => simp [entrypointRun]

/-- Witness for `C7_entrypoint_contains_failures` on a raised
exception. -/
theorem C7_entrypoint_witness :
    (entrypointRun (Except.error "setup failed")).1 = Except.ok () ∧
    AgentAction.logError "setup failed" ∈ (entrypointRun (Except.error "setup failed")).2 :=
  ⟨(C7_entrypoint_contains_failures (Except.error "setup failed")).1,
   (C7_entrypoint_contains_failures (Except.error "setup failed")).2.2
     "setup failed" rfl⟩

/-- Prepending "+" yields a string starting with "+". -/
lemma pyStartsWith_plus_append (s : String) :
    pyStartsWith ("+" ++ s) "+" = true := by
  have h : ("+" ++ s).data = '+' :: s.data := by
    rw [String.data_append]; rfl
  simp [pyStartsWith, h, List.isPrefixOf]

/-- Prepending "+1" yields a string starting with "+". -/
lemma pyStartsWith_plusOne_append (s : String) :
    pyStartsWith ("+1" ++ s) "+" = true := by
  have h : ("+1" ++ s).data = '+' :: '1' :: s.data := by
    rw [String.data_append]; rfl
  simp [pyStartsWith, h, List.isPrefixOf]

/-- C9: after stripping whitespace, a number starting with "+" is
dialled unchanged, one starting with "1" gets "+" prepended, any other
gets "+1" prepended, and the dialled number always starts with "+". -/
theorem C9_phone_normalization (phone : String) :
    (pyStartsWith (pyStrip phone) "+" = true →
      normalizeDialNumber phone = pyStrip phone) ∧
    (pyStartsWith (pyStrip phone) "+" = false →
      pyStartsWith (pyStrip phone) "1" = true →
      normalizeDialNumber phone = "+" ++ pyStrip phone) ∧
    (pyStartsWith (pyStrip phone) "+" = false →
      pyStartsWith (pyStrip phone) "1" = false →
      normalizeDialNumber phone = "+1" ++ pyStrip phone) ∧
    pyStartsWith (normalizeDialNumber phone) "+" = true := by
  refine ⟨fun h1 => ?_, fun h1 h2 => ?_, fun h1 h2 => ?_, ?_⟩
  · simp [normalizeDialNumber, h1]
  · simp [normalizeDialNumber, h1, h2]
  · simp [normalizeDialNumber, h1, h2]
  · by_cases h1 : pyStartsWith (pyStrip phone) "+" = true
    · simp [normalizeDialNumber, h1]
    · rw [Bool.not_eq_true] at h1
      by_cases h2 : pyStartsWith (pyStrip phone) "1" = true
      · simp only [normalizeDialNumber, h1, h2]
        simpa using pyStartsWith_plus_append (pyStrip phone)
      · rw [Bool.not_eq_true] at h2
        simp only [normalizeDialNumber, h1, h2]
        simpa using pyStartsWith_plusOne_append (pyStrip phone)

/-- Witness for `C9_phone_normalization` on a bare 10-digit number, a
1-prefixed number and an E.164 number. -/
theorem C9_phone_witness :
    normalizeDialNumber " 9497001119 " = "+1" ++ pyStrip " 9497001119 " ∧
    normalizeDialNumber "19497001119" = "+" ++ pyStrip "19497001119" ∧
    normalizeDialNumber "+19497001119" = pyStrip "+19497001119" :=
  ⟨(C9_phone_normalization " 9497001119 ").2.2.1 (by decide) (by decide),
   (C9_phone_normalization "19497001119").2.1 (by decide) (by decide),
   (C9_phone_normalization "+19497001119").1 (by decide)⟩

/-- The soundness property of each slot the availability loop emits,
relative to the grid anchor `current`. -/
def GoodSlot (endT dur current : Nat) (busy : List BusyInterval) (s : Slot) : Prop :=
  (∃ k, s.slotStart = current + 30 * k) ∧
  9 ≤ hourOfMinutes s.slotStart ∧ hourOfMinutes s.slotStart ≤ 17 ∧
  s.slotStop = s.slotStart + dur ∧
  (∀ b ∈ busy, ¬(s.slotStart < b.busyStop ∧ b.busyStart < s.slotStop)) ∧
  s.slotStop ≤ endT

/-- The loop never grows the accumulator past 8 slots. -/
lemma availLoop_length_le (endT dur : Nat) (busy : List BusyInterval) :
    ∀ (fuel current : Nat) (acc : List Slot), acc.length ≤ 7 →
      (availLoop endT dur busy fuel current acc).length ≤ 8 := by
  intro fuel
  induction fuel with
  | zero => intro current acc h; simp [availLoop]; omega
  | succ n ih =>
    intro current acc h
    simp only [availLoop]
    split
    case isTrue hc =>
      split
      case isTrue hb => exact ih _ _ h
      case isFalse hb =>
        by_cases hall : (busy.all fun b => !slotConflicts current (current + dur) b) = true
        · simp only [hall, if_true]
          by_cases h8 : 8 ≤ (acc ++ [(⟨current, current + dur⟩ : Slot)]).length
          · simp only [h8, if_true]; simp at h8 ⊢; omega
          · simp only [h8, if_false]
            exact ih _ _ (by simp at h8 ⊢; omega)
        · simp only [Bool.not_eq_true] at hall
          simp only [hall, Bool.false_eq_true, if_false]
          by_cases h8 : 8 ≤ acc.length
          · simp only [h8, if_true]; omega
          · simp only [h8, if_false]; exact ih _ _ (by omega)
    case isFalse hc => omega

/-- Every slot the loop returns was either already accumulated or is a
`GoodSlot` for the current grid anchor. -/
lemma availLoop_mem (endT dur : Nat) (busy : List BusyInterval) :
    ∀ (fuel current : Nat) (acc : List Slot) (s : Slot),
      s ∈ availLoop endT dur busy fuel current acc →
      s ∈ acc ∨ GoodSlot endT dur current busy s := by
  intro fuel
  induction fuel with
  | zero => intro current acc s h; simp [availLoop] at h; exact Or.inl h
  | succ n ih =>
    intro current acc s h
    simp only [availLoop] at h
    split at h
    case isTrue hc =>
      split at h
      case isTrue hb =>
        rcases ih (current + 30) acc s h with hin | ⟨⟨k, hk⟩, hrest⟩
        · exact Or.inl hin
        · exact Or.inr ⟨⟨k + 1, by omega⟩, hrest⟩
      case isFalse hb =>
        rw [not_or, Nat.not_lt, Nat.not_le] at hb
        by_cases hall : (busy.all fun b => !slotConflicts current (current + dur) b) = true
        · have hgood : GoodSlot endT dur current busy ⟨current, current + dur⟩ := by
            unfold GoodSlot
            dsimp only
            refine ⟨⟨0, by omega⟩, hb.1, by omega, rfl, ?_, hc⟩
            intro b hbmem
            have := List.all_eq_true.mp hall b hbmem
            simp [slotConflicts] at this
            omega
          simp only [hall, if_true] at h
          by_cases h8 : 8 ≤ (acc ++ [(⟨current, current + dur⟩ : Slot)]).length
          · simp only [h8, if_true] at h
            rcases List.mem_append.mp h with hin | hone
            · exact Or.inl hin
            · simp at hone; exact Or.inr (hone ▸ hgood)
          · simp only [h8, if_false] at h
            rcases ih (current + 30) _ s h with hin | ⟨⟨k, hk⟩, hrest⟩
            · rcases List.mem_append.mp hin with hin2 | hone
              · exact Or.inl hin2
              · simp at hone; exact Or.inr (hone ▸ hgood)
            · exact Or.inr ⟨⟨k + 1, by omega⟩, hrest⟩
        · simp only [Bool.not_eq_true] at hall
          simp only [hall, Bool.false_eq_true, if_false] at h
          by_cases h8 : 8 ≤ acc.length
          · simp only [h8, if_true] at h; exact Or.inl h
          · simp only [h8, if_false] at h
            rcases ih (current + 30) acc s h with hin | ⟨⟨k, hk⟩, hrest⟩
            · exact Or.inl hin
            · exact Or.inr ⟨⟨k + 1, by omega⟩, hrest⟩
    case isFalse hc => exact Or.inl h

/-- C10: `check_availability` returns at most 8 slots; each slot starts
on the 30-minute grid anchored at the query start, starts in business
hours (hour between 9 and 17), ends exactly `dur` minutes after it
starts, and overlaps no busy interval; a failed authentication or any
API/parsing error yields the empty list. -/
theorem C10_check_availability (authOk : Bool) (startT endT dur : Nat)
    (busy : List BusyInterval) :
    (check_availability authOk (some (startT, endT, busy)) dur).length ≤ 8 ∧
    (∀ s ∈ check_availability authOk (some (startT, endT, busy)) dur,
      (∃ k, s.slotStart = startT + 30 * k) ∧
      9 ≤ hourOfMinutes s.slotStart ∧ hourOfMinutes s.slotStart ≤ 17 ∧
      s.slotStop = s.slotStart + dur ∧
      (∀ b ∈ busy, ¬(s.slotStart < b.busyStop ∧ b.busyStart < s.slotStop))) ∧
    check_availability false (some (startT, endT, busy)) dur = [] ∧
    check_availability authOk none dur = [] := by
  refine ⟨?_, ?_, ?_, ?_⟩
  · cases authOk
    · simp [check_availability]
    · simpa [check_availability] using
        availLoop_length_le endT dur busy (endT + 31) startT [] (by simp)
  · intro s hs
    cases authOk
    · simp [check_availability] at hs
    · simp only [check_availability, Bool.true_eq_false, if_false] at hs
      rcases availLoop_mem endT dur busy (endT + 31) startT [] s hs with
        hin | ⟨hk, h9, h17, hstop, hbusy, _⟩
      · simp at hin
      · exact ⟨hk, h9, h17, hstop, hbusy⟩
  · simp [check_availability]
  · cases authOk <;> simp [check_availability]

/-- Witness for `C10_check_availability`: the 9:00 slot of a 9:00–12:00
query with one 10:00–11:00 busy interval. -/
theorem C10_check_availability_witness :
    9 ≤ hourOfMinutes (Slot.mk 540 600).slotStart ∧
    (Slot.mk 540 600).slotStop = (Slot.mk 540 600).slotStart + 60 :=
  have h := (C10_check_availability true 540 720 60 [⟨600, 660⟩]).2.1
    ⟨540, 600⟩ (by decide)
  ⟨h.2.1, h.2.2.2.1⟩

end NewportRentals
